import Mathlib

/-!
Verification development for the rusty_enet peer/host layer.

The repository ships the public `Peer` wrapper (src/src/peer.rs) and an example
server (src/examples/server.rs); the protocol engine behind the
`enet_peer_*` functions, the constants module and `Host::service` are not part
of the source tree, so those parts are modelled from the specification
(spec.md), as marked by doc comments starting with `Modelled from the spec:`.
Machine integers are modelled as `Nat` with explicit bounds where they matter.
-/

namespace RustyEnet

/-- The state of a `Peer` (src/src/peer.rs lines 28-39, enum `PeerState`). -/
inductive PeerState
  | disconnected
  | connecting
  | acknowledgingConnect
  | connectionPending
  | connectionSucceeded
  | connected
  | disconnectLater
  | disconnecting
  | acknowledgingDisconnect
  | zombie
deriving DecidableEq, Repr

/-- Modelled from the spec: the ten internal protocol state constants
(`ENET_PEER_STATE_*`, imported by src/src/peer.rs lines 7-11 from the missing
protocol module). Values follow the enumeration order of spec section 4.7. -/
def ENET_PEER_STATE_DISCONNECTED : Nat := 0

/-- Modelled from the spec: see `ENET_PEER_STATE_DISCONNECTED`. -/
def ENET_PEER_STATE_CONNECTING : Nat := 1

/-- Modelled from the spec: see `ENET_PEER_STATE_DISCONNECTED`. -/
def ENET_PEER_STATE_ACKNOWLEDGING_CONNECT : Nat := 2

/-- Modelled from the spec: see `ENET_PEER_STATE_DISCONNECTED`. -/
def ENET_PEER_STATE_CONNECTION_PENDING : Nat := 3

/-- Modelled from the spec: see `ENET_PEER_STATE_DISCONNECTED`. -/
def ENET_PEER_STATE_CONNECTION_SUCCEEDED : Nat := 4

/-- Modelled from the spec: see `ENET_PEER_STATE_DISCONNECTED`. -/
def ENET_PEER_STATE_CONNECTED : Nat := 5

/-- Modelled from the spec: see `ENET_PEER_STATE_DISCONNECTED`. -/
def ENET_PEER_STATE_DISCONNECT_LATER : Nat := 6

/-- Modelled from the spec: see `ENET_PEER_STATE_DISCONNECTED`. -/
def ENET_PEER_STATE_DISCONNECTING : Nat := 7

/-- Modelled from the spec: see `ENET_PEER_STATE_DISCONNECTED`. -/
def ENET_PEER_STATE_ACKNOWLEDGING_DISCONNECT : Nat := 8

/-- Modelled from the spec: see `ENET_PEER_STATE_DISCONNECTED`. -/
def ENET_PEER_STATE_ZOMBIE : Nat := 9

/-- Embedding of the `match` inside `Peer::state` (src/src/peer.rs lines
176-192), branch for branch in the source order; the final `none` is the
source's `unreachable!()` arm. -/
def peerStateOfCode (c : Nat) : Option PeerState :=
  if c = ENET_PEER_STATE_ZOMBIE then some .zombie
  else if c = ENET_PEER_STATE_ACKNOWLEDGING_DISCONNECT then some .acknowledgingDisconnect
  else if c = ENET_PEER_STATE_DISCONNECTING then some .disconnecting
  else if c = ENET_PEER_STATE_DISCONNECT_LATER then some .disconnectLater
  else if c = ENET_PEER_STATE_CONNECTED then some .connected
  else if c = ENET_PEER_STATE_CONNECTION_SUCCEEDED then some .connectionSucceeded
  else if c = ENET_PEER_STATE_CONNECTION_PENDING then some .connectionPending
  else if c = ENET_PEER_STATE_ACKNOWLEDGING_CONNECT then some .acknowledgingConnect
  else if c = ENET_PEER_STATE_CONNECTING then some .connecting
  else if c = ENET_PEER_STATE_DISCONNECTED then some .disconnected
  else none

/-- The internal state constant carried by a peer whose wrapper state is the
given `PeerState`; the inverse direction of the `Peer::state` match. -/
def peerStateCode : PeerState → Nat
  | .disconnected => ENET_PEER_STATE_DISCONNECTED
  | .connecting => ENET_PEER_STATE_CONNECTING
  | .acknowledgingConnect => ENET_PEER_STATE_ACKNOWLEDGING_CONNECT
  | .connectionPending => ENET_PEER_STATE_CONNECTION_PENDING
  | .connectionSucceeded => ENET_PEER_STATE_CONNECTION_SUCCEEDED
  | .connected => ENET_PEER_STATE_CONNECTED
  | .disconnectLater => ENET_PEER_STATE_DISCONNECT_LATER
  | .disconnecting => ENET_PEER_STATE_DISCONNECTING
  | .acknowledgingDisconnect => ENET_PEER_STATE_ACKNOWLEDGING_DISCONNECT
  | .zombie => ENET_PEER_STATE_ZOMBIE

/-- Modelled from the spec: `ENET_PROTOCOL_MAXIMUM_PEER_ID`, the constant
behind `PeerID::MAX` (src/src/peer.rs line 22); the spec fixes the valid
`PeerID` range as 0..=4094 (section 3, Peer). -/
def ENET_PROTOCOL_MAXIMUM_PEER_ID : Nat := 4094

/-- Embedding of `PeerID` (src/src/peer.rs line 16): a newtype around the
peer's index in the host's peer array. -/
structure PeerID where
  val : Nat
deriving DecidableEq, Repr

/-- Embedding of `PeerID::MIN` (src/src/peer.rs line 20). -/
def PeerID.MIN : Nat := 0

/-- Embedding of `PeerID::MAX` (src/src/peer.rs line 22). -/
def PeerID.MAX : Nat := ENET_PROTOCOL_MAXIMUM_PEER_ID

/-! ## Wire codec (spec sections 3 (Command) and 4.1)

The codec module is not in the source tree; it is modelled from the spec:
each command is a command header (type byte, channel ID byte, 16-bit
big-endian reliable sequence number) followed by a type-specific payload,
all fields big-endian (spec section 4.1).  Variable-length data is preceded
by a 16-bit length so that a header that claims a length that does not fit
is rejected (spec section 4.1, rejection rules). -/

/-- Big-endian two-byte encoding of a 16-bit value. -/
def be16 (n : Nat) : List Nat :=
  [n / 256 % 256, n % 256]

/-- Big-endian four-byte encoding of a 32-bit value. -/
def be32 (n : Nat) : List Nat :=
  [n / 16777216 % 256, n / 65536 % 256, n / 256 % 256, n % 256]

/-- Read one byte from the front of a byte list. -/
def readByte : List Nat → Option (Nat × List Nat)
  | [] => none
  | b :: rest => some (b, rest)

/-- Read a big-endian 16-bit value from the front of a byte list. -/
def readBE16 : List Nat → Option (Nat × List Nat)
  | b1 :: b0 :: rest => some (b1 * 256 + b0, rest)
  | _ => none

/-- Read a big-endian 32-bit value from the front of a byte list. -/
def readBE32 : List Nat → Option (Nat × List Nat)
  | b3 :: b2 :: b1 :: b0 :: rest =>
    some (((b3 * 256 + b2) * 256 + b1) * 256 + b0, rest)
  | _ => none

/-- Read exactly `n` raw bytes, failing when the claimed length does not fit
(spec section 4.1 rejection rule). -/
def readBytes (n : Nat) (l : List Nat) : Option (List Nat × List Nat) :=
  if n ≤ l.length then some (l.take n, l.drop n) else none

/-- Modelled from the spec: a protocol command (spec section 3, Command): a
type, a channel ID, a reliable sequence number and a type-specific payload,
covering all twelve enumerated command kinds.  The fragment payload fields
(shared by the reliable and the unreliable fragment commands) are those of
spec section 4.4; the Connect and VerifyConnect payloads carry the values
negotiated at handshake (spec section 3, Peer: the outgoing peer ID, the
session IDs, the negotiated MTU and window size, the advertised bandwidths,
the throttle parameters and the random connect ID, plus the caller's user
data on Connect, spec section 6); BandwidthLimit carries the two bandwidth
caps (spec sections 3 and 4.8). -/
inductive ProtocolCommand
  | acknowledge (channelID seq recvSeq recvSentTime : Nat)
  | connect
      (channelID seq outgoingPeerID incomingSessionID outgoingSessionID
        mtu windowSize channelCount incomingBandwidth outgoingBandwidth
        throttleInterval throttleAcceleration throttleDeceleration
        connectID data : Nat)
  | verifyConnect
      (channelID seq outgoingPeerID incomingSessionID outgoingSessionID
        mtu windowSize channelCount incomingBandwidth outgoingBandwidth
        throttleInterval throttleAcceleration throttleDeceleration
        connectID : Nat)
  | ping (channelID seq : Nat)
  | disconnect (channelID seq data : Nat)
  | bandwidthLimit (channelID seq incomingBandwidth outgoingBandwidth : Nat)
  | throttleConfigure (channelID seq interval acceleration deceleration : Nat)
  | sendReliable (channelID seq : Nat) (data : List Nat)
  | sendUnreliable (channelID seq unreliableSeq : Nat) (data : List Nat)
  | sendUnsequenced (channelID seq group : Nat) (data : List Nat)
  | sendFragment
      (channelID seq startSeq fragCount fragNum totalLength fragOffset : Nat)
      (data : List Nat)
  | sendUnreliableFragment
      (channelID seq startSeq fragCount fragNum totalLength fragOffset : Nat)
      (data : List Nat)
deriving DecidableEq, Repr

/-- Modelled from the spec: the command type byte, numbered after the
protocol's command enumeration (spec section 3 lists the twelve command
kinds). -/
def commandTypeByte : ProtocolCommand → Nat
  | .acknowledge .. => 1
  | .connect .. => 2
  | .verifyConnect .. => 3
  | .disconnect .. => 4
  | .ping .. => 5
  | .sendReliable .. => 6
  | .sendUnreliable .. => 7
  | .sendFragment .. => 8
  | .sendUnsequenced .. => 9
  | .bandwidthLimit .. => 10
  | .throttleConfigure .. => 11
  | .sendUnreliableFragment .. => 12

/-- Modelled from the spec: encode one command to wire bytes (spec section
4.1: command header, then the big-endian type-specific payload). -/
def encodeCommand (c : ProtocolCommand) : List Nat :=
  match c with
  | .acknowledge ch seq rs rt =>
    1 :: ch :: (be16 seq ++ (be16 rs ++ be16 rt))
  | .connect ch seq opid isid osid mtu ws cc ib ob ti ta td cid d =>
    2 :: ch :: (be16 seq ++ (be16 opid ++ (isid :: osid :: (be32 mtu ++
      (be32 ws ++ (be32 cc ++ (be32 ib ++ (be32 ob ++ (be32 ti ++
      (be32 ta ++ (be32 td ++ (be32 cid ++ be32 d))))))))))))
  | .verifyConnect ch seq opid isid osid mtu ws cc ib ob ti ta td cid =>
    3 :: ch :: (be16 seq ++ (be16 opid ++ (isid :: osid :: (be32 mtu ++
      (be32 ws ++ (be32 cc ++ (be32 ib ++ (be32 ob ++ (be32 ti ++
      (be32 ta ++ (be32 td ++ be32 cid)))))))))))
  | .disconnect ch seq d =>
    4 :: ch :: (be16 seq ++ be32 d)
  | .bandwidthLimit ch seq ib ob =>
    10 :: ch :: (be16 seq ++ (be32 ib ++ be32 ob))
  | .sendUnreliableFragment ch seq ss fc fn tl fo data =>
    12 :: ch :: (be16 seq ++ (be16 ss ++ (be16 data.length ++
      (be32 fc ++ (be32 fn ++ (be32 tl ++ (be32 fo ++ data)))))))
  | .ping ch seq =>
    5 :: ch :: be16 seq
  | .sendReliable ch seq data =>
    6 :: ch :: (be16 seq ++ (be16 data.length ++ data))
  | .sendUnreliable ch seq us data =>
    7 :: ch :: (be16 seq ++ (be16 us ++ (be16 data.length ++ data)))
  | .sendFragment ch seq ss fc fn tl fo data =>
    8 :: ch :: (be16 seq ++ (be16 ss ++ (be16 data.length ++
      (be32 fc ++ (be32 fn ++ (be32 tl ++ (be32 fo ++ data)))))))
  | .sendUnsequenced ch seq g data =>
    9 :: ch :: (be16 seq ++ (be16 g ++ (be16 data.length ++ data)))
  | .throttleConfigure ch seq i a d =>
    11 :: ch :: (be16 seq ++ (be32 i ++ (be32 a ++ be32 d)))

/-- Modelled from the spec: decode the Acknowledge payload (see
`decodeCommand`). -/
def decodeAcknowledge (ch seq : Nat) (l3 : List Nat) :
    Option (ProtocolCommand × List Nat) := do
  let (rs, l4) ← readBE16 l3
  let (rt, l5) ← readBE16 l4
  pure (.acknowledge ch seq rs rt, l5)

/-- Modelled from the spec: decode the trailing bandwidth, throttle,
connect-ID and user-data fields of the Connect payload (see
`decodeConnect`). -/
def decodeConnectTail (ch seq opid isid osid mtu ws cc : Nat)
    (l9 : List Nat) : Option (ProtocolCommand × List Nat) := do
  let (ib, l10) ← readBE32 l9
  let (ob, l11) ← readBE32 l10
  let (ti, l12) ← readBE32 l11
  let (ta, l13) ← readBE32 l12
  let (td, l14) ← readBE32 l13
  let (cid, l15) ← readBE32 l14
  let (d, l16) ← readBE32 l15
  pure (.connect ch seq opid isid osid mtu ws cc ib ob ti ta td cid d, l16)

/-- Modelled from the spec: decode the Connect payload (see
`decodeCommand`). -/
def decodeConnect (ch seq : Nat) (l3 : List Nat) :
    Option (ProtocolCommand × List Nat) := do
  let (opid, l4) ← readBE16 l3
  let (isid, l5) ← readByte l4
  let (osid, l6) ← readByte l5
  let (mtu, l7) ← readBE32 l6
  let (ws, l8) ← readBE32 l7
  let (cc, l9) ← readBE32 l8
  decodeConnectTail ch seq opid isid osid mtu ws cc l9

/-- Modelled from the spec: decode the trailing bandwidth, throttle and
connect-ID fields of the VerifyConnect payload (see
`decodeVerifyConnect`). -/
def decodeVerifyConnectTail (ch seq opid isid osid mtu ws cc : Nat)
    (l9 : List Nat) : Option (ProtocolCommand × List Nat) := do
  let (ib, l10) ← readBE32 l9
  let (ob, l11) ← readBE32 l10
  let (ti, l12) ← readBE32 l11
  let (ta, l13) ← readBE32 l12
  let (td, l14) ← readBE32 l13
  let (cid, l15) ← readBE32 l14
  pure (.verifyConnect ch seq opid isid osid mtu ws cc ib ob ti ta td cid, l15)

/-- Modelled from the spec: decode the VerifyConnect payload (see
`decodeCommand`). -/
def decodeVerifyConnect (ch seq : Nat) (l3 : List Nat) :
    Option (ProtocolCommand × List Nat) := do
  let (opid, l4) ← readBE16 l3
  let (isid, l5) ← readByte l4
  let (osid, l6) ← readByte l5
  let (mtu, l7) ← readBE32 l6
  let (ws, l8) ← readBE32 l7
  let (cc, l9) ← readBE32 l8
  decodeVerifyConnectTail ch seq opid isid osid mtu ws cc l9

/-- Modelled from the spec: decode the Disconnect payload (see
`decodeCommand`). -/
def decodeDisconnect (ch seq : Nat) (l3 : List Nat) :
    Option (ProtocolCommand × List Nat) := do
  let (d, l4) ← readBE32 l3
  pure (.disconnect ch seq d, l4)

/-- Modelled from the spec: decode the BandwidthLimit payload (see
`decodeCommand`). -/
def decodeBandwidthLimit (ch seq : Nat) (l3 : List Nat) :
    Option (ProtocolCommand × List Nat) := do
  let (ib, l4) ← readBE32 l3
  let (ob, l5) ← readBE32 l4
  pure (.bandwidthLimit ch seq ib ob, l5)

/-- Modelled from the spec: decode the ThrottleConfigure payload (see
`decodeCommand`). -/
def decodeThrottleConfigure (ch seq : Nat) (l3 : List Nat) :
    Option (ProtocolCommand × List Nat) := do
  let (i, l4) ← readBE32 l3
  let (a, l5) ← readBE32 l4
  let (d, l6) ← readBE32 l5
  pure (.throttleConfigure ch seq i a d, l6)

/-- Modelled from the spec: decode the SendReliable payload (see
`decodeCommand`). -/
def decodeSendReliable (ch seq : Nat) (l3 : List Nat) :
    Option (ProtocolCommand × List Nat) := do
  let (len, l4) ← readBE16 l3
  let (data, l5) ← readBytes len l4
  pure (.sendReliable ch seq data, l5)

/-- Modelled from the spec: decode the SendUnreliable payload (see
`decodeCommand`). -/
def decodeSendUnreliable (ch seq : Nat) (l3 : List Nat) :
    Option (ProtocolCommand × List Nat) := do
  let (us, l4) ← readBE16 l3
  let (len, l5) ← readBE16 l4
  let (data, l6) ← readBytes len l5
  pure (.sendUnreliable ch seq us data, l6)

/-- Modelled from the spec: decode the SendUnsequenced payload (see
`decodeCommand`). -/
def decodeSendUnsequenced (ch seq : Nat) (l3 : List Nat) :
    Option (ProtocolCommand × List Nat) := do
  let (g, l4) ← readBE16 l3
  let (len, l5) ← readBE16 l4
  let (data, l6) ← readBytes len l5
  pure (.sendUnsequenced ch seq g data, l6)

/-- Modelled from the spec: decode the SendFragment payload, shared field
for field with the unreliable fragment command (spec section 4.4; see
`decodeCommand`). -/
def decodeSendFragment (ch seq : Nat) (l3 : List Nat) :
    Option (ProtocolCommand × List Nat) := do
  let (ss, l4) ← readBE16 l3
  let (len, l5) ← readBE16 l4
  let (fc, l6) ← readBE32 l5
  let (fn, l7) ← readBE32 l6
  let (tl, l8) ← readBE32 l7
  let (fo, l9) ← readBE32 l8
  let (data, l10) ← readBytes len l9
  pure (.sendFragment ch seq ss fc fn tl fo data, l10)

/-- Modelled from the spec: decode the SendUnreliableFragment payload (spec
section 4.4; see `decodeCommand`). -/
def decodeSendUnreliableFragment (ch seq : Nat) (l3 : List Nat) :
    Option (ProtocolCommand × List Nat) := do
  let (ss, l4) ← readBE16 l3
  let (len, l5) ← readBE16 l4
  let (fc, l6) ← readBE32 l5
  let (fn, l7) ← readBE32 l6
  let (tl, l8) ← readBE32 l7
  let (fo, l9) ← readBE32 l8
  let (data, l10) ← readBytes len l9
  pure (.sendUnreliableFragment ch seq ss fc fn tl fo data, l10)

/-- Modelled from the spec: decode one command from the front of a byte
list, returning the command and the remaining bytes of the datagram (spec
section 4.1: commands are concatenated and consumed in sequence); the
command header is read here and the type byte dispatches to the payload
decoder of the matching command kind; `none` is a rejected datagram. -/
def decodeCommand (l : List Nat) : Option (ProtocolCommand × List Nat) := do
  let (t, l1) ← readByte l
  let (ch, l2) ← readByte l1
  let (seq, l3) ← readBE16 l2
  if t = 1 then decodeAcknowledge ch seq l3
  else if t = 2 then decodeConnect ch seq l3
  else if t = 3 then decodeVerifyConnect ch seq l3
  else if t = 4 then decodeDisconnect ch seq l3
  else if t = 5 then pure (.ping ch seq, l3)
  else if t = 6 then decodeSendReliable ch seq l3
  else if t = 7 then decodeSendUnreliable ch seq l3
  else if t = 8 then decodeSendFragment ch seq l3
  else if t = 9 then decodeSendUnsequenced ch seq l3
  else if t = 10 then decodeBandwidthLimit ch seq l3
  else if t = 11 then decodeThrottleConfigure ch seq l3
  else if t = 12 then decodeSendUnreliableFragment ch seq l3
  else none

/-- A command is legal when every field fits its wire width (channel ID one
byte, sequence numbers and lengths 16 bits, the wide fragment and data
fields 32 bits, payload bytes one byte each). -/
def ProtocolCommand.legal : ProtocolCommand → Bool
  | .acknowledge ch seq rs rt =>
    ch < 256 && seq < 65536 && rs < 65536 && rt < 65536
  | .connect ch seq opid isid osid mtu ws cc ib ob ti ta td cid d =>
    ch < 256 && seq < 65536 && opid < 65536 && isid < 256 && osid < 256 &&
      mtu < 4294967296 && ws < 4294967296 && cc < 4294967296 &&
      ib < 4294967296 && ob < 4294967296 && ti < 4294967296 &&
      ta < 4294967296 && td < 4294967296 && cid < 4294967296 &&
      d < 4294967296
  | .verifyConnect ch seq opid isid osid mtu ws cc ib ob ti ta td cid =>
    ch < 256 && seq < 65536 && opid < 65536 && isid < 256 && osid < 256 &&
      mtu < 4294967296 && ws < 4294967296 && cc < 4294967296 &&
      ib < 4294967296 && ob < 4294967296 && ti < 4294967296 &&
      ta < 4294967296 && td < 4294967296 && cid < 4294967296
  | .ping ch seq => ch < 256 && seq < 65536
  | .disconnect ch seq d => ch < 256 && seq < 65536 && d < 4294967296
  | .bandwidthLimit ch seq ib ob =>
    ch < 256 && seq < 65536 && ib < 4294967296 && ob < 4294967296
  | .sendUnreliableFragment ch seq ss fc fn tl fo data =>
    ch < 256 && seq < 65536 && ss < 65536 && fc < 4294967296 &&
      fn < 4294967296 && tl < 4294967296 && fo < 4294967296 &&
      data.length < 65536 && data.all (· < 256)
  | .throttleConfigure ch seq i a d =>
    ch < 256 && seq < 65536 && i < 4294967296 && a < 4294967296 &&
      d < 4294967296
  | .sendReliable ch seq data =>
    ch < 256 && seq < 65536 && data.length < 65536 && data.all (· < 256)
  | .sendUnreliable ch seq us data =>
    ch < 256 && seq < 65536 && us < 65536 && data.length < 65536 &&
      data.all (· < 256)
  | .sendUnsequenced ch seq g data =>
    ch < 256 && seq < 65536 && g < 65536 && data.length < 65536 &&
      data.all (· < 256)
  | .sendFragment ch seq ss fc fn tl fo data =>
    ch < 256 && seq < 65536 && ss < 65536 && fc < 4294967296 &&
      fn < 4294967296 && tl < 4294967296 && fo < 4294967296 &&
      data.length < 65536 && data.all (· < 256)

/-! ## Peer model and peer operations

The `ENetPeer` structure behind the raw pointer in `Peer` (src/src/peer.rs
line 44) lives in the missing protocol module; its fields are modelled from
the spec (section 3, Peer) and from the field list in the `Debug`
implementation (src/src/peer.rs lines 283-384), restricted to the fields
the verified claims touch.  Default field values are the peer-reset values
of spec sections 4.5 and 4.6. -/

/-- Modelled from the spec: packet flags (spec section 3, Packet: Reliable,
Unsequenced, UnreliableFragment, NoAllocate). -/
structure PacketFlags where
  reliable : Bool := false
  unsequenced : Bool := false
  unreliableFragment : Bool := false
  noAllocate : Bool := false
deriving DecidableEq, Repr

/-- Modelled from the spec: an application packet, payload bytes plus flags
(spec section 3, Packet). -/
structure Packet where
  flags : PacketFlags := {}
  data : List Nat := []
deriving DecidableEq, Repr

/-- Modelled from the spec: the protocol maximum packet size, about 2^24 - 1
bytes (spec section 7, PacketTooLarge). -/
def ENET_PROTOCOL_MAXIMUM_PACKET_SIZE : Nat := 16777215

/-- Modelled from the spec: `ENET_PEER_PACKET_THROTTLE_SCALE`, the fixed
constant bounding the throttle (spec section 3, invariant I6: typically
32). -/
def ENET_PEER_PACKET_THROTTLE_SCALE : Nat := 32

/-- Modelled from the spec: `ENET_PEER_TIMEOUT_LIMIT`, the default timeout
limit (spec section 4.6: limit = 32). -/
def ENET_PEER_TIMEOUT_LIMIT : Nat := 32

/-- Modelled from the spec: `ENET_PEER_TIMEOUT_MINIMUM`, the default timeout
minimum in milliseconds (spec section 4.6: minimum = 5000 ms). -/
def ENET_PEER_TIMEOUT_MINIMUM : Nat := 5000

/-- Modelled from the spec: `ENET_PEER_TIMEOUT_MAXIMUM`, the default timeout
maximum in milliseconds (spec section 4.6: maximum = 30000 ms). -/
def ENET_PEER_TIMEOUT_MAXIMUM : Nat := 30000

/-- Modelled from the spec: the `ENetPeer` protocol state of one peer slot,
with the fields the claims touch.  `ever_connected` is a history variable
recording whether the slot was ever assigned a remote (the address becomes
known exactly then, spec section 3: the remote socket address once
learned). -/
structure ENetPeer where
  state : PeerState := .disconnected
  address : Option Nat := none
  ever_connected : Bool := false
  channel_count : Nat := 0
  packet_throttle : Nat := ENET_PEER_PACKET_THROTTLE_SCALE
  packet_throttle_limit : Nat := ENET_PEER_PACKET_THROTTLE_SCALE
  packet_throttle_acceleration : Nat := 2
  packet_throttle_deceleration : Nat := 2
  packet_throttle_interval : Nat := 5000
  timeout_limit : Nat := ENET_PEER_TIMEOUT_LIMIT
  timeout_minimum : Nat := ENET_PEER_TIMEOUT_MINIMUM
  timeout_maximum : Nat := ENET_PEER_TIMEOUT_MAXIMUM
  outgoing_commands : List ProtocolCommand := []
  sent_reliable_commands : List (ProtocolCommand × Nat) := []
deriving DecidableEq, Repr

/-- Modelled from the spec: the Connected family of states (spec sections 3,
4.9 and 7): the states in which a session is established and traffic may
still be queued, namely Connected and DisconnectLater. -/
def PeerState.connectedFamily : PeerState → Bool
  | .connected => true
  | .disconnectLater => true
  | _ => false

/-- Modelled from the spec: the error kinds `Peer::send` can surface
(spec section 7; the `error::PeerSendError` module is not in the source
tree). -/
inductive PeerSendError
  | notConnected
  | invalidChannel
  | packetTooLarge
  | invalidPacketFlags
  | failedToQueue
deriving DecidableEq, Repr

/-- Modelled from the spec: `enet_peer_ping` (behind `Peer::ping`,
src/src/peer.rs lines 60-62).  A ping request is queued for a connected
peer; the wrapper returns unit, so a peer that is not connected is a no-op
with no error surfaced. -/
def enet_peer_ping (p : ENetPeer) : ENetPeer :=
  if p.state = .connected then
    { p with outgoing_commands := p.outgoing_commands ++ [.ping 255 0] }
  else p

/-- Modelled from the spec: `enet_peer_send` (behind `Peer::send`,
src/src/peer.rs lines 69-71).  The checks follow spec section 7:
PeerNotConnected when the peer is not in a Connected-family state,
InvalidPacketFlags for the illegal Reliable+Unsequenced combination (a
property of the packet itself, spec section 3), InvalidChannel for a
channel id at or beyond the peer's channel count, PacketTooLarge beyond the
protocol maximum; otherwise the corresponding send command is queued.  On
an error the peer is returned unchanged and nothing is queued. -/
def enet_peer_send (p : ENetPeer) (channelID : Nat) (pkt : Packet) :
    ENetPeer × Option PeerSendError :=
  if ¬ p.state.connectedFamily then (p, some .notConnected)
  else if pkt.flags.reliable && pkt.flags.unsequenced then
    (p, some .invalidPacketFlags)
  else if p.channel_count ≤ channelID then (p, some .invalidChannel)
  else if ENET_PROTOCOL_MAXIMUM_PACKET_SIZE < pkt.data.length then
    (p, some .packetTooLarge)
  else if pkt.flags.reliable then
    ({ p with outgoing_commands :=
        p.outgoing_commands ++ [.sendReliable channelID 0 pkt.data] }, none)
  else if pkt.flags.unsequenced then
    ({ p with outgoing_commands :=
        p.outgoing_commands ++ [.sendUnsequenced channelID 0 0 pkt.data] },
      none)
  else
    ({ p with outgoing_commands :=
        p.outgoing_commands ++ [.sendUnreliable channelID 0 0 pkt.data] },
      none)

/-- Modelled from the spec: `enet_peer_disconnect` (behind
`Peer::disconnect`, src/src/peer.rs lines 77-79).  A Connected-family peer
moves to Disconnecting and a Disconnect command is queued (spec section
4.7); the wrapper returns unit, so no error is ever surfaced. -/
def enet_peer_disconnect (p : ENetPeer) (data : Nat) : ENetPeer :=
  if p.state.connectedFamily then
    { p with state := .disconnecting,
             outgoing_commands := p.outgoing_commands ++ [.disconnect 255 0 data] }
  else p

/-- Modelled from the spec: `enet_peer_disconnect_later` (behind
`Peer::disconnect_later`, src/src/peer.rs lines 94-96).  A Connected-family
peer moves to DisconnectLater (spec section 4.7). -/
def enet_peer_disconnect_later (p : ENetPeer) (_data : Nat) : ENetPeer :=
  if p.state.connectedFamily then { p with state := .disconnectLater } else p

/-- Modelled from the spec: `enet_peer_reset` (behind `Peer::reset`,
src/src/peer.rs lines 102-106).  The peer returns to Disconnected with all
queues cleared and all tunables back at their defaults (spec sections 4.7
and 3, invariant I7); the stored remote address is kept, so that a
disconnected peer still reports the previously connected remote's address
(src/src/peer.rs lines 274-276). -/
def enet_peer_reset (p : ENetPeer) : ENetPeer :=
  { ({} : ENetPeer) with
      address := p.address,
      ever_connected := p.ever_connected }

/-- Modelled from the spec: `enet_peer_disconnect_now` (behind
`Peer::disconnect_now`, src/src/peer.rs lines 86-88).  A best-effort
Disconnect is handed to the endpoint unreliably and the peer is reset
immediately, ending in Disconnected with no event queued (spec section
4.7); the transmitted bytes are not part of the peer state, so the result
is the reset peer. -/
def enet_peer_disconnect_now (p : ENetPeer) (_data : Nat) : ENetPeer :=
  enet_peer_reset p

/-- Modelled from the spec: `enet_peer_timeout` (behind `Peer::set_timeout`,
src/src/peer.rs lines 125-127).  A zero argument installs the corresponding
default (src/src/peer.rs lines 119-124 and spec section 4.6). -/
def enet_peer_timeout (p : ENetPeer) (limit minimum maximum : Nat) : ENetPeer :=
  { p with
      timeout_limit := if limit = 0 then ENET_PEER_TIMEOUT_LIMIT else limit,
      timeout_minimum :=
        if minimum = 0 then ENET_PEER_TIMEOUT_MINIMUM else minimum,
      timeout_maximum :=
        if maximum = 0 then ENET_PEER_TIMEOUT_MAXIMUM else maximum }

/-- Modelled from the spec: `enet_peer_throttle_configure` (behind
`Peer::set_throttle`, src/src/peer.rs lines 170-172).  The three parameters
are stored and a ThrottleConfigure command is queued for the remote (spec
sections 4.5 and 3, Command list). -/
def enet_peer_throttle_configure (p : ENetPeer)
    (interval acceleration deceleration : Nat) : ENetPeer :=
  { p with
      packet_throttle_interval := interval,
      packet_throttle_acceleration := acceleration,
      packet_throttle_deceleration := deceleration,
      outgoing_commands := p.outgoing_commands ++
        [.throttleConfigure 255 0 interval acceleration deceleration] }

/-- Modelled from the spec: the per-interval throttle adjustment (spec
section 4.5): at the end of a measurement interval, if the lowest observed
RTT is below the mean the throttle increases by the acceleration, if it
exceeds the mean plus the variance it decreases by the deceleration,
otherwise it is unchanged; the value saturates at the interval
[0, throttle_limit]. -/
def enet_peer_throttle (p : ENetPeer) (lowestRtt meanRtt variance : Nat) :
    ENetPeer :=
  if lowestRtt < meanRtt then
    { p with packet_throttle := min (p.packet_throttle + p.packet_throttle_acceleration) p.packet_throttle_limit }
  else if meanRtt + variance < lowestRtt then
    { p with packet_throttle := p.packet_throttle - p.packet_throttle_deceleration }
  else p

/-- Modelled from the spec: assignment of a peer slot to a remote at
handshake completion (spec section 3, Lifecycle): the remote address is
learned and the peer enters Connected. -/
def peerConnect (p : ENetPeer) (addr : Nat) (channels : Nat) : ENetPeer :=
  { p with
      state := .connected,
      address := some addr,
      ever_connected := true,
      channel_count := channels }

/-- Modelled from the spec: the peer-side effect of a timeout (spec section
4.7: any non-Disconnected state plus timeout moves the peer to Zombie). -/
def peerTimeoutZombie (p : ENetPeer) : ENetPeer :=
  { p with state := .zombie }

/-- The throttle invariant I6 (spec section 3):
`throttle ∈ [0, throttle_limit] ⊆ [0, THROTTLE_SCALE]`; the lower bounds
are inherent to `Nat`. -/
def throttleInv (p : ENetPeer) : Prop :=
  p.packet_throttle ≤ p.packet_throttle_limit ∧
    p.packet_throttle_limit ≤ ENET_PEER_PACKET_THROTTLE_SCALE

instance (p : ENetPeer) : Decidable (throttleInv p) := by
  unfold throttleInv
  infer_instance

/-- The address history invariant behind `Peer::address` (src/src/peer.rs
lines 274-280): the stored address is present exactly when the peer has at
some point been connected. -/
def addrInv (p : ENetPeer) : Prop :=
  p.address.isSome = p.ever_connected

instance (p : ENetPeer) : Decidable (addrInv p) := by
  unfold addrInv
  infer_instance

/-- The observable result of a `Peer::ping` call: the updated peer together
with the error the caller can observe.  The wrapper's return type is unit
(src/src/peer.rs line 60), so the error component is always `none`: the
call has no error channel. -/
def pingCall (p : ENetPeer) : ENetPeer × Option PeerSendError :=
  (enet_peer_ping p, none)

/-- The observable result of a `Peer::disconnect` call: the updated peer
together with the error the caller can observe.  The wrapper's return type
is unit (src/src/peer.rs line 77), so the error component is always
`none`: the call has no error channel. -/
def disconnectCall (p : ENetPeer) (data : Nat) : ENetPeer × Option PeerSendError :=
  (enet_peer_disconnect p data, none)

/-! ## Host model and the service tick (spec sections 3 and 4.9)

`Host` and `Host::service` are not in the source tree; they are modelled
from the spec.  The endpoint is represented by the list of datagrams it has
pending (already split into their commands; the byte-level codec is the
module above), and the model records whether a `service` call waited on the
endpoint.  New-connection assignment (the handshake) is outside the scope
of this model: received datagrams are matched only against peer slots that
hold the sender's address and are not Disconnected. -/

/-- Modelled from the spec: an application event (spec section 6, Events),
with the peer named by its slot index. -/
inductive Event
  | connect (peer : Nat) (data : Nat)
  | disconnect (peer : Nat) (data : Nat)
  | receive (peer : Nat) (channelID : Nat) (data : List Nat)
deriving DecidableEq, Repr

/-- Modelled from the spec: the `Host` (spec section 3, Host): the fixed
vector of peer slots, the queue of dispatched application events, the
monotonically increasing service timestamp, and the datagrams pending at
the endpoint. -/
structure Host where
  peers : List ENetPeer := []
  dispatch_queue : List Event := []
  incoming : List (Nat × List ProtocolCommand) := []
  service_time : Nat := 0
deriving DecidableEq, Repr

/-- The peer slot at index `i` (the Disconnected default stands in for an
out-of-range index; theorems restrict indices to the slot count). -/
def Host.getPeer (h : Host) (i : Nat) : ENetPeer :=
  (h.peers[i]?).getD {}

/-- Embedding of `Peer::id` (src/src/peer.rs lines 49-51): the pointer
offset of the peer slot from the start of the host's peer array, that is
the slot index itself. -/
def Peer.id (_h : Host) (i : Nat) : PeerID :=
  ⟨i⟩

/-- Is a command subject to acknowledgement (spec section 3, Command:
reliable ones also live in sent-reliable until acknowledged)? -/
def ProtocolCommand.isReliable : ProtocolCommand → Bool
  | .sendUnsequenced .. => false
  | .sendUnreliable .. => false
  | .sendUnreliableFragment .. => false
  | .acknowledge .. => false
  | _ => true

/-- Modelled from the spec: the send phase of the tick for one peer (spec
section 4.9 step 2): queued outgoing commands are packed and transmitted,
and the reliable ones move to sent-reliable stamped with the current
time. -/
def peerSendStep (now : Nat) (p : ENetPeer) : ENetPeer :=
  { p with
      outgoing_commands := [],
      sent_reliable_commands := p.sent_reliable_commands ++
        ((p.outgoing_commands.filter ProtocolCommand.isReliable).map (fun c => (c, now))) }

/-- Modelled from the spec: the send phase over all peers (spec section 4.9
step 2). -/
def sendPhase (h : Host) : Host :=
  { h with peers := h.peers.map (peerSendStep h.service_time) }

/-- Modelled from the spec: look up the sender of a datagram by address
(spec section 4.9 step 3); only a slot holding that address and not in the
Disconnected state matches. -/
def findPeerByAddress (peers : List ENetPeer) (addr : Nat) : Option Nat :=
  peers.findIdx? (fun p =>
    decide (p.address = some addr) && !(decide (p.state = PeerState.disconnected)))

/-- Modelled from the spec: processing of one received command for the peer
slot `i` (spec section 4.9 step 3 and section 7): a reliable send to a
connected peer queues a Receive event; a protocol-level Disconnect moves
the peer to Zombie and queues a Disconnect event; the remaining command
kinds update state not modelled here and queue nothing. -/
def processCommand (h : Host) (i : Nat) (c : ProtocolCommand) : Host :=
  match c with
  | .sendReliable ch _ data =>
    if (h.getPeer i).state = .connected then
      { h with dispatch_queue := h.dispatch_queue ++ [.receive i ch data] }
    else h
  | .disconnect _ _ data =>
    { h with
        peers := h.peers.set i (peerTimeoutZombie (h.getPeer i)),
        dispatch_queue := h.dispatch_queue ++ [.disconnect i data] }
  | _ => h

/-- Modelled from the spec: the receive phase of the tick (spec section 4.9
step 3): the endpoint is drained; each datagram's sender is looked up by
address and the datagram's commands are processed in order; datagrams with
no matching peer are dropped. -/
def receivePhase (h : Host) : Host :=
  h.incoming.foldl
    (fun acc dg =>
      match findPeerByAddress acc.peers dg.1 with
      | none => acc
      | some i => dg.2.foldl (fun a c => processCommand a i c) acc)
    { h with incoming := [] }

/-- Modelled from the spec: has this peer an unacknowledged reliable command
outstanding past the maximum timeout (spec section 4.6 rule (b))? -/
def peerTimedOut (now : Nat) (p : ENetPeer) : Bool :=
  p.state.connectedFamily &&
    p.sent_reliable_commands.any (fun ct => decide (ct.2 + p.timeout_maximum ≤ now))

/-- Modelled from the spec: the timeout phase of the tick (spec section 4.9
step 4): every Connected-family peer with an expired reliable command is
marked Zombie and a synthetic Disconnect event with data 0 is queued (spec
section 7, fatal per-peer). -/
def timeoutPhase (h : Host) : Host :=
  (List.range h.peers.length).foldl
    (fun acc i =>
      if peerTimedOut acc.service_time (acc.getPeer i) then
        { acc with
            peers := acc.peers.set i (peerTimeoutZombie (acc.getPeer i)),
            dispatch_queue := acc.dispatch_queue ++ [.disconnect i 0] }
      else acc)
    h

/-- Modelled from the spec: the tail of the service tick after the phases
of steps 2-4 have run (spec section 4.9): an event the tick produced is
returned with no endpoint wait; otherwise nothing is returned and the call
waits on the endpoint exactly when the caller passed a positive timeout
(step 5, modelled as a single iteration). -/
def serviceFinish (h3 : Host) (timeout : Nat) : Host × Option Event × Bool :=
  match h3.dispatch_queue with
  | e :: rest => ({ h3 with dispatch_queue := rest }, some e, false)
  | [] => (h3, none, decide (0 < timeout))

/-- Modelled from the spec: `Host::service` (spec section 4.9; called in
src/examples/server.rs line 13).  The call returns the updated host, at
most one application event, and whether it waited on the endpoint: a
pending dispatched event is returned immediately with no endpoint wait
(step 1); otherwise one send/receive/timeout tick runs (steps 2-4) and
`serviceFinish` returns a newly produced event, if any. -/
def Host.service (h : Host) (timeout : Nat) : Host × Option Event × Bool :=
  match h.dispatch_queue with
  | e :: rest => ({ h with dispatch_queue := rest }, some e, false)
  | [] => serviceFinish (timeoutPhase (receivePhase (sendPhase h))) timeout

/-- Modelled from the spec: `Peer::disconnect_now` reached through its host
slot (src/src/peer.rs lines 86-88): slot `i` is forced to Disconnected with
no event queued. -/
def hostDisconnectNow (h : Host) (i : Nat) (data : Nat) : Host :=
  { h with peers := h.peers.set i (enet_peer_disconnect_now (h.getPeer i) data) }

/-- Modelled from the spec: `Peer::reset` reached through its host slot
(src/src/peer.rs lines 102-106). -/
def hostReset (h : Host) (i : Nat) : Host :=
  { h with peers := h.peers.set i (enet_peer_reset (h.getPeer i)) }

/-- Does this event report a disconnect of peer slot `i`? -/
def eventDisconnectFor (i : Nat) : Event → Bool
  | .disconnect j _ => decide (j = i)
  | _ => false

/-- No Disconnect event for peer slot `i` sits in the queue. -/
def noDisconnectFor (i : Nat) (q : List Event) : Bool :=
  q.all (fun e => !(eventDisconnectFor i e))

/-- The post-disconnect condition for peer slot `i`: the slot is
Disconnected and no Disconnect event for it is queued. -/
def slotQuiet (h : Host) (i : Nat) : Prop :=
  (h.getPeer i).state = .disconnected ∧ noDisconnectFor i h.dispatch_queue = true

instance (h : Host) (i : Nat) : Decidable (slotQuiet h i) := by
  unfold slotQuiet
  infer_instance

/-! ## Concrete inputs used by the witness theorems -/

/-- A freshly created peer slot: Disconnected, never connected. -/
def peerDisc : ENetPeer :=
  {}

/-- A peer slot connected to the remote at address 7 with two channels. -/
def peerConn : ENetPeer :=
  peerConnect {} 7 2

/-- An empty packet with no flags set. -/
def pktEmpty : Packet :=
  {}

/-- A packet carrying the illegal Reliable and Unsequenced flag
combination. -/
def pktRU : Packet :=
  { flags := { reliable := true, unsequenced := true }, data := [1, 2, 3] }

/-- A sample legal fragment command exercising every payload width. -/
def sampleCommand : ProtocolCommand :=
  .sendFragment 3 17 5 4 2 4096 1024 [0, 255, 7]

/-- A one-slot host. -/
def hostW1 : Host :=
  { peers := [peerDisc] }

/-- A two-slot host with both slots connected to the remote at address 7. -/
def hostW3 : Host :=
  { peers := [peerConn, peerConn] }

/-- A host with two application events already dispatched and pending. -/
def hostW6 : Host :=
  { peers := [peerConn],
    dispatch_queue := [Event.receive 0 0 [4], Event.connect 0 0] }

/-! ## Theorems -/

/-- Reading a big-endian 16-bit field back yields the encoded value. -/
theorem readBE16_be16 {n : Nat} (rest : List Nat) (h : n < 65536) :
    readBE16 (be16 n ++ rest) = some (n, rest) := by
  simp only [be16, List.cons_append, List.nil_append, readBE16]
  have : n / 256 % 256 * 256 + n % 256 = n := by omega
  rw [this]

/-- Reading a big-endian 32-bit field back yields the encoded value. -/
theorem readBE32_be32 {n : Nat} (rest : List Nat) (h : n < 4294967296) :
    readBE32 (be32 n ++ rest) = some (n, rest) := by
  simp only [be32, List.cons_append, List.nil_append, readBE32]
  have : ((n / 16777216 % 256 * 256 + n / 65536 % 256) * 256 + n / 256 % 256) * 256 + n % 256 = n := by
    omega
  rw [this]

/-- Reading back exactly the bytes that were written yields them and leaves
the rest. -/
theorem readBytes_exact (l rest : List Nat) :
    readBytes l.length (l ++ rest) = some (l, rest) := by
  simp [readBytes, List.take_left, List.drop_left]

set_option maxHeartbeats 1000000 in
/-- The Connect tail decoder reads back the encoded trailing fields. -/
theorem decodeConnectTail_payload (ch seq opid isid osid mtu ws cc ib ob ti ta td cid d : Nat)
    (rest : List Nat) (h9 : ib < 4294967296)
    (h10 : ob < 4294967296) (h11 : ti < 4294967296) (h12 : ta < 4294967296)
    (h13 : td < 4294967296) (h14 : cid < 4294967296) (h15 : d < 4294967296) :
    decodeConnectTail ch seq opid isid osid mtu ws cc (be32 ib ++
        (be32 ob ++ (be32 ti ++ (be32 ta ++ (be32 td ++ (be32 cid ++
        (be32 d ++ rest))))))) =
      some (.connect ch seq opid isid osid mtu ws cc ib ob ti ta td cid d,
        rest) := by
  simp [decodeConnectTail, readBE32_be32, h9, h10, h11, h12, h13, h14, h15]

set_option maxHeartbeats 1000000 in
/-- The Connect payload decoder reads back the encoded handshake fields. -/
theorem decodeConnect_payload (ch seq opid isid osid mtu ws cc ib ob ti ta td cid d : Nat)
    (rest : List Nat) (h3 : opid < 65536) (h6 : mtu < 4294967296)
    (h7 : ws < 4294967296) (h8 : cc < 4294967296) (h9 : ib < 4294967296)
    (h10 : ob < 4294967296) (h11 : ti < 4294967296) (h12 : ta < 4294967296)
    (h13 : td < 4294967296) (h14 : cid < 4294967296) (h15 : d < 4294967296) :
    decodeConnect ch seq (be16 opid ++ (isid :: osid :: (be32 mtu ++
        (be32 ws ++ (be32 cc ++ (be32 ib ++ (be32 ob ++ (be32 ti ++
        (be32 ta ++ (be32 td ++ (be32 cid ++ (be32 d ++ rest)))))))))))) =
      some (.connect ch seq opid isid osid mtu ws cc ib ob ti ta td cid d,
        rest) := by
  simp [decodeConnect, readByte, readBE16_be16, readBE32_be32, h3, h6, h7,
    h8, decodeConnectTail_payload, h9, h10, h11, h12, h13, h14, h15]

set_option maxHeartbeats 1000000 in
/-- The VerifyConnect tail decoder reads back the encoded trailing
fields. -/
theorem decodeVerifyConnectTail_payload (ch seq opid isid osid mtu ws cc ib ob ti ta td cid : Nat)
    (rest : List Nat) (h9 : ib < 4294967296)
    (h10 : ob < 4294967296) (h11 : ti < 4294967296) (h12 : ta < 4294967296)
    (h13 : td < 4294967296) (h14 : cid < 4294967296) :
    decodeVerifyConnectTail ch seq opid isid osid mtu ws cc (be32 ib ++
        (be32 ob ++ (be32 ti ++ (be32 ta ++ (be32 td ++ (be32 cid ++
        rest)))))) =
      some (.verifyConnect ch seq opid isid osid mtu ws cc ib ob ti ta td cid,
        rest) := by
  simp [decodeVerifyConnectTail, readBE32_be32, h9, h10, h11, h12, h13, h14]

set_option maxHeartbeats 1000000 in
/-- The VerifyConnect payload decoder reads back the encoded handshake
fields. -/
theorem decodeVerifyConnect_payload (ch seq opid isid osid mtu ws cc ib ob ti ta td cid : Nat)
    (rest : List Nat) (h3 : opid < 65536) (h6 : mtu < 4294967296)
    (h7 : ws < 4294967296) (h8 : cc < 4294967296) (h9 : ib < 4294967296)
    (h10 : ob < 4294967296) (h11 : ti < 4294967296) (h12 : ta < 4294967296)
    (h13 : td < 4294967296) (h14 : cid < 4294967296) :
    decodeVerifyConnect ch seq (be16 opid ++ (isid :: osid :: (be32 mtu ++
        (be32 ws ++ (be32 cc ++ (be32 ib ++ (be32 ob ++ (be32 ti ++
        (be32 ta ++ (be32 td ++ (be32 cid ++ rest))))))))))) =
      some (.verifyConnect ch seq opid isid osid mtu ws cc ib ob ti ta td cid,
        rest) := by
  simp [decodeVerifyConnect, readByte, readBE16_be16, readBE32_be32, h3, h6,
    h7, h8, decodeVerifyConnectTail_payload, h9, h10, h11, h12, h13, h14]

set_option maxHeartbeats 4000000 in
/-- C8: for every legal command — all twelve command kinds of the protocol
enumeration — decoding the bytes produced by encoding it yields the command
itself and leaves any trailing bytes of the datagram untouched: the wire
codec's decode is a left inverse of encode on legal inputs (spec property
P6). -/
theorem c8_decode_encode (c : ProtocolCommand) (rest : List Nat)
    (h : c.legal = true) :
    decodeCommand (encodeCommand c ++ rest) = some (c, rest) := by
  cases c with
  | acknowledge ch seq rs rt =>
    simp only [ProtocolCommand.legal, Bool.and_eq_true, decide_eq_true_eq] at h
    obtain ⟨⟨⟨h1, h2⟩, h3⟩, h4⟩ := h
    simp [encodeCommand, decodeCommand, decodeAcknowledge, readByte, List.append_assoc,
      readBE16_be16, h2, h3, h4]
  | connect ch seq opid isid osid mtu ws cc ib ob ti ta td cid d =>
    simp only [ProtocolCommand.legal, Bool.and_eq_true, decide_eq_true_eq] at h
    obtain ⟨⟨⟨⟨⟨⟨⟨⟨⟨⟨⟨⟨⟨⟨h1, h2⟩, h3⟩, h4⟩, h5⟩, h6⟩, h7⟩, h8⟩, h9⟩,
      h10⟩, h11⟩, h12⟩, h13⟩, h14⟩, h15⟩ := h
    simp [encodeCommand, decodeCommand, readByte, List.append_assoc,
      readBE16_be16, h2, decodeConnect_payload, h3, h6, h7, h8, h9, h10,
      h11, h12, h13, h14, h15]
  | verifyConnect ch seq opid isid osid mtu ws cc ib ob ti ta td cid =>
    simp only [ProtocolCommand.legal, Bool.and_eq_true, decide_eq_true_eq] at h
    obtain ⟨⟨⟨⟨⟨⟨⟨⟨⟨⟨⟨⟨⟨h1, h2⟩, h3⟩, h4⟩, h5⟩, h6⟩, h7⟩, h8⟩, h9⟩,
      h10⟩, h11⟩, h12⟩, h13⟩, h14⟩ := h
    simp [encodeCommand, decodeCommand, readByte, List.append_assoc,
      readBE16_be16, h2, decodeVerifyConnect_payload, h3, h6, h7, h8, h9,
      h10, h11, h12, h13, h14]
  | bandwidthLimit ch seq ib ob =>
    simp only [ProtocolCommand.legal, Bool.and_eq_true, decide_eq_true_eq] at h
    obtain ⟨⟨⟨h1, h2⟩, h3⟩, h4⟩ := h
    simp [encodeCommand, decodeCommand, decodeBandwidthLimit, readByte, List.append_assoc,
      readBE16_be16, readBE32_be32, h2, h3, h4]
  | sendUnreliableFragment ch seq ss fc fn tl fo data =>
    simp only [ProtocolCommand.legal, Bool.and_eq_true, decide_eq_true_eq] at h
    obtain ⟨⟨⟨⟨⟨⟨⟨⟨h1, h2⟩, h3⟩, h4⟩, h5⟩, h6⟩, h7⟩, h8⟩, h9⟩ := h
    simp [encodeCommand, decodeCommand, decodeSendUnreliableFragment, readByte, List.append_assoc,
      readBE16_be16, readBE32_be32, h2, h3, h4, h5, h6, h7, h8,
      readBytes_exact]
  | ping ch seq =>
    simp only [ProtocolCommand.legal, Bool.and_eq_true, decide_eq_true_eq] at h
    obtain ⟨h1, h2⟩ := h
    simp [encodeCommand, decodeCommand, readByte, List.append_assoc,
      readBE16_be16, h2]
  | disconnect ch seq d =>
    simp only [ProtocolCommand.legal, Bool.and_eq_true, decide_eq_true_eq] at h
    obtain ⟨⟨h1, h2⟩, h3⟩ := h
    simp [encodeCommand, decodeCommand, decodeDisconnect, readByte, List.append_assoc,
      readBE16_be16, readBE32_be32, h2, h3]
  | throttleConfigure ch seq i a d =>
    simp only [ProtocolCommand.legal, Bool.and_eq_true, decide_eq_true_eq] at h
    obtain ⟨⟨⟨⟨h1, h2⟩, h3⟩, h4⟩, h5⟩ := h
    simp [encodeCommand, decodeCommand, decodeThrottleConfigure, readByte, List.append_assoc,
      readBE16_be16, readBE32_be32, h2, h3, h4, h5]
  | sendReliable ch seq data =>
    simp only [ProtocolCommand.legal, Bool.and_eq_true, decide_eq_true_eq] at h
    obtain ⟨⟨⟨h1, h2⟩, h3⟩, h4⟩ := h
    simp [encodeCommand, decodeCommand, decodeSendReliable, readByte, List.append_assoc,
      readBE16_be16, h2, h3, readBytes_exact]
  | sendUnreliable ch seq us data =>
    simp only [ProtocolCommand.legal, Bool.and_eq_true, decide_eq_true_eq] at h
    obtain ⟨⟨⟨⟨h1, h2⟩, h3⟩, h4⟩, h5⟩ := h
    simp [encodeCommand, decodeCommand, decodeSendUnreliable, readByte, List.append_assoc,
      readBE16_be16, h2, h3, h4, readBytes_exact]
  | sendUnsequenced ch seq g data =>
    simp only [ProtocolCommand.legal, Bool.and_eq_true, decide_eq_true_eq] at h
    obtain ⟨⟨⟨⟨h1, h2⟩, h3⟩, h4⟩, h5⟩ := h
    simp [encodeCommand, decodeCommand, decodeSendUnsequenced, readByte, List.append_assoc,
      readBE16_be16, h2, h3, h4, readBytes_exact]
  | sendFragment ch seq ss fc fn tl fo data =>
    simp only [ProtocolCommand.legal, Bool.and_eq_true, decide_eq_true_eq] at h
    obtain ⟨⟨⟨⟨⟨⟨⟨⟨h1, h2⟩, h3⟩, h4⟩, h5⟩, h6⟩, h7⟩, h8⟩, h9⟩ := h
    simp [encodeCommand, decodeCommand, decodeSendFragment, readByte, List.append_assoc,
      readBE16_be16, readBE32_be32, h2, h3, h4, h5, h6, h7, h8,
      readBytes_exact]

/-- Witness for C8 at a concrete fragment command. -/
theorem c8_witness :
    sampleCommand.legal = true ∧
      decodeCommand (encodeCommand sampleCommand ++ [9, 9]) =
        some (sampleCommand, [9, 9]) :=
  ⟨by decide, c8_decode_encode sampleCommand [9, 9] (by decide)⟩

/-- C9: the `Peer::state` match is a bijection between the ten internal
state constants and the ten `PeerState` variants, and never reaches the
`unreachable!()` arm on them: composing the code of each variant back
through the match returns that variant (so the match is injective on codes
and reaches every variant), and mapping the match over the constants 0
through 9 yields all ten variants, each through a `some` (so no constant
falls through to the unreachable arm). -/
theorem c9_state_match_bijection :
    (∀ st : PeerState, peerStateOfCode (peerStateCode st) = some st) ∧
      (List.range 10).map peerStateOfCode =
        [some .disconnected, some .connecting, some .acknowledgingConnect,
          some .connectionPending, some .connectionSucceeded, some .connected,
          some .disconnectLater, some .disconnecting,
          some .acknowledgingDisconnect, some .zombie] := by
  constructor
  · intro st
    cases st <;> rfl
  · rfl

/-- C1: `PeerID::MIN` is 0 and `PeerID::MAX` is 4094, and in a host whose
slot count respects the protocol bound of at most 4095 peers, every peer
slot's `Peer::id` value lies in the range 0..=4094. -/
theorem c1_peer_id_range :
    PeerID.MIN = 0 ∧ PeerID.MAX = 4094 ∧
      ∀ (h : Host) (i : Nat),
        h.peers.length ≤ ENET_PROTOCOL_MAXIMUM_PEER_ID + 1 →
        i < h.peers.length →
        PeerID.MIN ≤ (Peer.id h i).val ∧ (Peer.id h i).val ≤ PeerID.MAX := by
  refine ⟨rfl, rfl, ?_⟩
  intro h i hle hi
  simp only [Peer.id, PeerID.MIN, PeerID.MAX, ENET_PROTOCOL_MAXIMUM_PEER_ID] at *
  omega

/-- Witness for C1 on a concrete one-slot host. -/
theorem c1_witness :
    PeerID.MIN ≤ (Peer.id hostW1 0).val ∧ (Peer.id hostW1 0).val ≤ PeerID.MAX :=
  c1_peer_id_range.2.2 hostW1 0 (by decide) (by decide)

/-- C7: the timeout default constants are 32, 5000 ms and 30000 ms, and a
zero argument to `Peer::set_timeout` installs the corresponding default. -/
theorem c7_set_timeout_defaults :
    ENET_PEER_TIMEOUT_LIMIT = 32 ∧ ENET_PEER_TIMEOUT_MINIMUM = 5000 ∧
      ENET_PEER_TIMEOUT_MAXIMUM = 30000 ∧
      ∀ (p : ENetPeer) (l m x : Nat),
        (enet_peer_timeout p 0 m x).timeout_limit = 32 ∧
        (enet_peer_timeout p l 0 x).timeout_minimum = 5000 ∧
        (enet_peer_timeout p l m 0).timeout_maximum = 30000 := by
  refine ⟨rfl, rfl, rfl, ?_⟩
  intro p l m x
  refine ⟨rfl, rfl, rfl⟩

/-- C5: the throttle invariant I6, `throttle ≤ throttle_limit ≤
THROTTLE_SCALE` (the lower bound 0 being inherent to the unsigned values),
is preserved both by the per-interval throttle adjustment and by a
`Peer::set_throttle` reconfiguration. -/
theorem c5_throttle_invariant (p : ENetPeer)
    (lowestRtt meanRtt variance interval acceleration deceleration : Nat)
    (h : throttleInv p) :
    throttleInv (enet_peer_throttle p lowestRtt meanRtt variance) ∧
      throttleInv (enet_peer_throttle_configure p interval acceleration deceleration) := by
  obtain ⟨h1, h2⟩ := h
  constructor
  · unfold enet_peer_throttle
    split
    · exact ⟨Nat.min_le_right _ _, h2⟩
    · split
      · exact ⟨Nat.le_trans (Nat.sub_le _ _) h1, h2⟩
      · exact ⟨h1, h2⟩
  · exact ⟨h1, h2⟩

/-- Witness for C5 at a concrete peer and a measurement that raises the
throttle. -/
theorem c5_witness :
    throttleInv (enet_peer_throttle peerDisc 3 10 1) ∧
      throttleInv (enet_peer_throttle_configure peerDisc 1000 4 4) :=
  c5_throttle_invariant peerDisc 3 10 1 1000 4 4 (by decide)

/-- C2 (corrected): on a peer not in a Connected-family state, `Peer::send`
surfaces the PeerNotConnected error, while `Peer::ping` and
`Peer::disconnect` return unit and surface no error at all (their wrapper
signatures, src/src/peer.rs lines 60 and 77, have no error channel);
`Peer::reset` likewise returns unit and is always valid. -/
theorem c2_not_connected_errors (p : ENetPeer) (ch : Nat) (pkt : Packet)
    (d : Nat) (h : p.state.connectedFamily = false) :
    (enet_peer_send p ch pkt).2 = some PeerSendError.notConnected ∧
      (pingCall p).2 = none ∧ (disconnectCall p d).2 = none := by
  refine ⟨?_, rfl, rfl⟩
  simp [enet_peer_send, h]

/-- Witness for C2 at a concrete disconnected peer. -/
theorem c2_witness :
    (enet_peer_send peerDisc 0 pktEmpty).2 = some PeerSendError.notConnected ∧
      (pingCall peerDisc).2 = none ∧ (disconnectCall peerDisc 0).2 = none :=
  c2_not_connected_errors peerDisc 0 pktEmpty 0 (by decide)

/-- Counterexample for C2 as stated: the claim asks ping (and disconnect) on
a non-connected peer to surface PeerNotConnected, but on the concrete
never-connected peer both calls surface no error, because their wrapper
signatures return unit. -/
theorem c2_counterexample :
    PeerState.connectedFamily peerDisc.state = false ∧
      ¬ (pingCall peerDisc).2 = some PeerSendError.notConnected ∧
      ¬ (disconnectCall peerDisc 0).2 = some PeerSendError.notConnected := by
  decide

/-- C4 (corrected): on a peer in a Connected-family state, a packet whose
flags combine Reliable and Unsequenced makes `Peer::send` fail with the
InvalidPacketFlags error on every channel, returning the peer unchanged, so
no command is queued. -/
theorem c4_invalid_packet_flags (p : ENetPeer) (ch : Nat) (pkt : Packet)
    (hconn : p.state.connectedFamily = true)
    (hr : pkt.flags.reliable = true) (hu : pkt.flags.unsequenced = true) :
    enet_peer_send p ch pkt = (p, some PeerSendError.invalidPacketFlags) := by
  simp [enet_peer_send, hconn, hr, hu]

/-- Witness for C4 at a concrete connected peer and flag-invalid packet. -/
theorem c4_witness :
    enet_peer_send peerConn 0 pktRU =
      (peerConn, some PeerSendError.invalidPacketFlags) :=
  c4_invalid_packet_flags peerConn 0 pktRU (by decide) (by decide) (by decide)

/-- Counterexample for C4 as stated: on a peer that is not connected the
same Reliable+Unsequenced packet fails with PeerNotConnected, not
InvalidPacketFlags, so the unqualified claim fails. -/
theorem c4_counterexample :
    pktRU.flags.reliable = true ∧ pktRU.flags.unsequenced = true ∧
      (enet_peer_send peerDisc 0 pktRU).2 = some PeerSendError.notConnected ∧
      ¬ (enet_peer_send peerDisc 0 pktRU).2 = some PeerSendError.invalidPacketFlags := by
  decide

/-- C10: `Peer::address` is `none` exactly on a never-connected peer, and
every disconnect variant leaves the stored remote address unchanged: a
fresh slot has no address and is not ever-connected, slot assignment
installs the address and marks the slot ever-connected, every disconnect
variant (request, immediate, later), `reset` and the timeout transition
keep the `address` field itself untouched, and each preserves the
invariant that the address is present exactly when the peer has ever been
connected. -/
theorem c10_address_frame (p : ENetPeer) (d addr chans : Nat)
    (hinv : addrInv p) :
    (peerDisc.address = none ∧ peerDisc.ever_connected = false) ∧
      addrInv (peerConnect p addr chans) ∧
      (enet_peer_disconnect p d).address = p.address ∧
      (enet_peer_disconnect_now p d).address = p.address ∧
      (enet_peer_disconnect_later p d).address = p.address ∧
      (enet_peer_reset p).address = p.address ∧
      (peerTimeoutZombie p).address = p.address ∧
      addrInv (enet_peer_disconnect p d) ∧
      addrInv (enet_peer_disconnect_now p d) ∧
      addrInv (enet_peer_disconnect_later p d) ∧
      addrInv (enet_peer_reset p) ∧
      addrInv (peerTimeoutZombie p) := by
  have hd : (enet_peer_disconnect p d).address = p.address := by
    unfold enet_peer_disconnect
    split <;> rfl
  have hl : (enet_peer_disconnect_later p d).address = p.address := by
    unfold enet_peer_disconnect_later
    split <;> rfl
  have hde : (enet_peer_disconnect p d).ever_connected = p.ever_connected := by
    unfold enet_peer_disconnect
    split <;> rfl
  have hle : (enet_peer_disconnect_later p d).ever_connected = p.ever_connected := by
    unfold enet_peer_disconnect_later
    split <;> rfl
  refine ⟨⟨rfl, rfl⟩, rfl, hd, rfl, hl, rfl, rfl, ?_, ?_, ?_, ?_, ?_⟩ <;>
    unfold addrInv at *
  · rw [hd, hde]
    exact hinv
  · exact hinv
  · rw [hl, hle]
    exact hinv
  · exact hinv
  · exact hinv

/-- Witness for C10 at a concrete connected peer. -/
theorem c10_witness :
    (enet_peer_reset peerConn).address = peerConn.address ∧
      addrInv (enet_peer_reset peerConn) :=
  have h := c10_address_frame peerConn 0 7 2 (by decide)
  ⟨h.2.2.2.2.2.2.1, h.2.2.2.2.2.2.2.2.2.2.1⟩

/-- A fold preserves any invariant its step function preserves. -/
theorem foldl_preserve {α β : Type} (P : α → Prop) (f : α → β → α) :
    ∀ (l : List β) (init : α), (∀ a b, P a → P (f a b)) → P init →
      P (l.foldl f init)
  | [], _, _, h0 => h0
  | x :: xs, init, hind, h0 =>
    foldl_preserve P f xs (f init x) hind (hind init x h0)

/-- The element `findIdx?` points at satisfies the predicate. -/
theorem findIdx?_some_pred {α : Type} {p : α → Bool} {l : List α} {i : Nat}
    (h : l.findIdx? p = some i) : ∃ a, l[i]? = some a ∧ p a = true := by
  rw [List.findIdx?_eq_some_iff_findIdx_eq] at h
  obtain ⟨hlt, hidx⟩ := h
  subst hidx
  exact ⟨l[List.findIdx p l], List.getElem?_eq_getElem hlt, List.findIdx_getElem⟩

/-- The send phase does not change any slot's state. -/
theorem getPeer_sendPhase_state (h : Host) (i : Nat) :
    ((sendPhase h).getPeer i).state = (h.getPeer i).state := by
  unfold Host.getPeer sendPhase
  simp only [List.getElem?_map]
  cases hp : h.peers[i]? <;> simp [peerSendStep]

/-- The send phase keeps a quiet slot quiet: it touches no state and no
events. -/
theorem slotQuiet_sendPhase (h : Host) (i : Nat) (hq : slotQuiet h i) :
    slotQuiet (sendPhase h) i := by
  refine ⟨?_, hq.2⟩
  rw [getPeer_sendPhase_state]
  exact hq.1

/-- Appending an event that is not a disconnect of slot `i` keeps the queue
clean of disconnects for `i`. -/
theorem noDisconnectFor_append {i : Nat} {q : List Event} {e : Event}
    (hq : noDisconnectFor i q = true) (he : eventDisconnectFor i e = false) :
    noDisconnectFor i (q ++ [e]) = true := by
  simp only [noDisconnectFor, List.all_append, List.all_cons, List.all_nil,
    Bool.and_eq_true, Bool.not_eq_true'] at *
  exact ⟨hq, he, trivial⟩

/-- Processing one received command for a slot other than `i` keeps a quiet
slot `i` quiet. -/
theorem processCommand_preserve {i j : Nat} (hne : j ≠ i) (a : Host)
    (c : ProtocolCommand) (hq : slotQuiet a i) :
    slotQuiet (processCommand a j c) i := by
  obtain ⟨hs, hn⟩ := hq
  cases c with
  | sendReliable ch seq data =>
    simp only [processCommand]
    split
    · exact ⟨hs, noDisconnectFor_append hn rfl⟩
    · exact ⟨hs, hn⟩
  | disconnect ch seq data =>
    simp only [processCommand]
    refine ⟨?_, ?_⟩
    · show (((a.peers.set j _)[i]?).getD {}).state = _
      rw [List.getElem?_set_ne hne]
      exact hs
    · exact noDisconnectFor_append hn (by simp [eventDisconnectFor, hne])
  | acknowledge ch seq rs rt => exact ⟨hs, hn⟩
  | connect ch seq opid isid osid mtu ws cc ib ob ti ta td cid d =>
    exact ⟨hs, hn⟩
  | verifyConnect ch seq opid isid osid mtu ws cc ib ob ti ta td cid =>
    exact ⟨hs, hn⟩
  | ping ch seq => exact ⟨hs, hn⟩
  | bandwidthLimit ch seq ib ob => exact ⟨hs, hn⟩
  | throttleConfigure ch seq x y z => exact ⟨hs, hn⟩
  | sendUnreliable ch seq us data => exact ⟨hs, hn⟩
  | sendUnsequenced ch seq g data => exact ⟨hs, hn⟩
  | sendFragment ch seq ss fc fn tl fo data => exact ⟨hs, hn⟩
  | sendUnreliableFragment ch seq ss fc fn tl fo data => exact ⟨hs, hn⟩

/-- The receive phase keeps a quiet slot quiet: a Disconnected slot never
matches a datagram, so no command is processed against it and no event can
name it. -/
theorem receivePhase_preserve (h : Host) (i : Nat) (hq : slotQuiet h i) :
    slotQuiet (receivePhase h) i := by
  unfold receivePhase
  refine foldl_preserve (fun a => slotQuiet a i) _ _ _ ?_ hq
  intro a dg ha
  dsimp only
  cases hf : findPeerByAddress a.peers dg.1 with
  | none => exact ha
  | some j =>
    obtain ⟨pa, hpa, hpred⟩ := findIdx?_some_pred hf
    simp only [Bool.and_eq_true, Bool.not_eq_true', decide_eq_true_eq,
      decide_eq_false_iff_not] at hpred
    have hjne : j ≠ i := by
      intro hji
      subst hji
      have hdisc : (a.getPeer j).state = .disconnected := ha.1
      unfold Host.getPeer at hdisc
      rw [hpa] at hdisc
      exact hpred.2 hdisc
    exact foldl_preserve (fun a2 => slotQuiet a2 i) _ _ _
      (fun a2 c ha2 => processCommand_preserve hjne a2 c ha2) ha

/-- The timeout phase keeps a quiet slot quiet: a Disconnected slot is not
in the Connected family, so it cannot time out, and timeouts of other
slots only queue Disconnect events naming those slots. -/
theorem timeoutPhase_preserve (h : Host) (i : Nat) (hq : slotQuiet h i) :
    slotQuiet (timeoutPhase h) i := by
  unfold timeoutPhase
  refine foldl_preserve (fun a => slotQuiet a i) _ _ _ ?_ hq
  intro a j ha
  dsimp only
  split
  · rename_i hcond
    by_cases hji : j = i
    · subst hji
      unfold peerTimedOut at hcond
      rw [ha.1] at hcond
      simp [PeerState.connectedFamily] at hcond
    · refine ⟨?_, ?_⟩
      · show (((a.peers.set j _)[i]?).getD {}).state = _
        rw [List.getElem?_set_ne hji]
        exact ha.1
      · exact noDisconnectFor_append ha.2 (by simp [eventDisconnectFor, hji])
  · exact ha

/-- A service call on a host whose slot `i` is quiet returns no Disconnect
event for `i` and leaves the slot quiet, so no later call can produce one
either. -/
theorem service_preserves_quiet (g : Host) (t : Nat) (i : Nat)
    (hq : slotQuiet g i) :
    (∀ e, (Host.service g t).2.1 = some e → eventDisconnectFor i e = false) ∧
      slotQuiet (Host.service g t).1 i := by
  unfold Host.service
  cases hdq : g.dispatch_queue with
  | cons e rest =>
    have hall := hq.2
    rw [hdq] at hall
    simp only [noDisconnectFor, List.all_cons, Bool.and_eq_true,
      Bool.not_eq_true'] at hall
    refine ⟨?_, hq.1, ?_⟩
    · intro e2 he2
      simp only at he2
      rw [← Option.some_inj.mp he2]
      exact hall.1
    · simp only [noDisconnectFor]
      exact hall.2
  | nil =>
    have hq3 : slotQuiet (timeoutPhase (receivePhase (sendPhase g))) i :=
      timeoutPhase_preserve _ _
        (receivePhase_preserve _ _ (slotQuiet_sendPhase _ _ hq))
    unfold serviceFinish
    cases hdq3 : (timeoutPhase (receivePhase (sendPhase g))).dispatch_queue with
    | nil => exact ⟨fun e he => by simp at he, hq3.1, by rw [hdq3]; rfl⟩
    | cons e3 r3 =>
      have hall := hq3.2
      rw [hdq3] at hall
      simp only [noDisconnectFor, List.all_cons, Bool.and_eq_true,
        Bool.not_eq_true'] at hall
      refine ⟨?_, hq3.1, ?_⟩
      · intro e2 he2
        simp only at he2
        rw [← Option.some_inj.mp he2]
        exact hall.1
      · simp only [noDisconnectFor]
        exact hall.2

/-- C3: forcing slot `i` down with `Peer::disconnect_now` or `Peer::reset`
always succeeds (both are total and return unit), leaves the slot in the
Disconnected state, queues no event, and — as long as no Disconnect event
for the slot was already pending — no service call can subsequently
generate a Disconnect event for it: a quiet slot stays quiet under
`Host::service`. -/
theorem c3_disconnect_now_reset (h : Host) (i d : Nat)
    (hi : i < h.peers.length)
    (hnd : noDisconnectFor i h.dispatch_queue = true) :
    ((hostDisconnectNow h i d).getPeer i).state = .disconnected ∧
      (hostDisconnectNow h i d).dispatch_queue = h.dispatch_queue ∧
      ((hostReset h i).getPeer i).state = .disconnected ∧
      (hostReset h i).dispatch_queue = h.dispatch_queue ∧
      slotQuiet (hostDisconnectNow h i d) i ∧
      slotQuiet (hostReset h i) i ∧
      ∀ (g : Host) (t : Nat), slotQuiet g i →
        (∀ e, (Host.service g t).2.1 = some e →
          eventDisconnectFor i e = false) ∧
          slotQuiet (Host.service g t).1 i := by
  have hset : ∀ q : ENetPeer,
      (((h.peers.set i q)[i]?).getD {}).state = q.state := by
    intro q
    rw [List.getElem?_set_eq_of_lt q hi]
    rfl
  have h1 : ((hostDisconnectNow h i d).getPeer i).state = .disconnected := by
    unfold hostDisconnectNow Host.getPeer
    rw [hset]
    rfl
  have h3 : ((hostReset h i).getPeer i).state = .disconnected := by
    unfold hostReset Host.getPeer
    rw [hset]
    rfl
  exact ⟨h1, rfl, h3, rfl, ⟨h1, hnd⟩, ⟨h3, hnd⟩,
    fun g t hqg => service_preserves_quiet g t i hqg⟩

/-- Witness for C3 on a concrete two-slot host, forcing down slot 1. -/
theorem c3_witness :
    ((hostDisconnectNow hostW3 1 0).getPeer 1).state = PeerState.disconnected ∧
      slotQuiet (hostDisconnectNow hostW3 1 0) 1 :=
  have h := c3_disconnect_now_reset hostW3 1 0 (by decide) (by decide)
  ⟨h.1, h.2.2.2.2.1⟩

/-- C6: every `Host::service` call returns at most one application event,
and when dispatched events are pending the call returns the first of them
immediately: the queue merely loses its head, the rest of the host is
untouched, and the endpoint is not waited on, so successive calls drain
pending events one per call. -/
theorem c6_service_one_event :
    (∀ (g : Host) (t : Nat), ((Host.service g t).2.1).toList.length ≤ 1) ∧
      ∀ (h : Host) (t : Nat) (e : Event) (rest : List Event),
        h.dispatch_queue = e :: rest →
        Host.service h t = ({ h with dispatch_queue := rest }, some e, false) := by
  constructor
  · intro g t
    cases (Host.service g t).2.1 <;> simp
  · intro h t e rest hdq
    unfold Host.service
    rw [hdq]

/-- Witness for C6 on a concrete host with two pending events. -/
theorem c6_witness :
    Host.service hostW6 5 =
      ({ hostW6 with dispatch_queue := [Event.connect 0 0] },
        some (Event.receive 0 0 [4]), false) :=
  c6_service_one_event.2 hostW6 5 (Event.receive 0 0 [4]) [Event.connect 0 0] rfl

end RustyEnet
